import Mathlib

/-!
Verification of `pkg/ghost/git/file.go` (git-ghost).

The five operations of the file are thin, precisely-parameterized
invocations of an external version-control tool through a process runner,
threaded through the local filesystem.  We embed them shallowly:

* `World T` is the observable state: a filesystem (path to byte content),
  a working-tree / repository state per directory (abstract type `T`),
  and a trace of every external process spawned (its full argv), so that
  "invokes no external process" is a statement about the trace.
* `GitEnv T` packages the observable behaviour of the external tool:
  for each kind of invocation the bytes it writes to its standard output,
  its exit status, and (for the mutating invocations) the successor tree
  state.  Laws about the tool (e.g. that a mailbox apply of a generated
  bundle reconstructs the target revision) appear as hypotheses of the
  theorems, never as axioms.
* Errors are lists of causes (`List GErr`), the empty list standing for
  the nil error: `multierror.Append` is list append of one cause, and
  `errors.WithStack` preserves nil-ness and the cause list.
-/

namespace GitGhost

abbrev Bytes := List Nat

abbrev Path := String

/-- Observable state threaded through every operation: the filesystem,
the tree state of each directory, and the argv of every spawned process. -/
structure World (T : Type) where
  fs : Path → Option Bytes
  trees : String → T
  trace : List (List String)

/-- Pointwise update of the filesystem map. -/
def updateFS (fs : Path → Option Bytes) (p : Path) (v : Option Bytes) : Path → Option Bytes :=
  fun q => if q = p then v else fs q

/-- Pointwise update of the per-directory tree map. -/
def updTrees {T : Type} (ts : String → T) (d : String) (t : T) : String → T :=
  fun q => if q = d then t else ts q

/-- An error cause: either a filesystem failure at a path (open or stat),
or a spawned command that exited with a nonzero status.  An aggregated
error is a list of such causes; `[]` is the nil error. -/
inductive GErr where
  | fsErr (path : Path) : GErr
  | exitErr (argv : List String) (code : Nat) : GErr
deriving DecidableEq, Repr

/-- Modelled from the spec: the Process Runner (`util.JustRunCmd`, spec
section 4.1 — not under `src/`) and the observable behaviour of the
external version-control tool it spawns.  For each invocation shape used
by `file.go` this records the bytes the process writes to its attached
standard output, its exit status (0 meaning success, the runner returning
an error exactly on nonzero status or spawn failure), and, for the
invocations that mutate the working tree (`am`, `am --abort`, `apply`),
the successor tree state. -/
structure GitEnv (T : Type) where
  logOut : T → String → String → Bytes
  logExit : T → String → String → Nat
  amStep : T → Option Bytes → T
  amExit : T → Option Bytes → Nat
  abortStep : T → T
  abortExit : T → Nat
  diffOut : T → String → Bytes
  diffExit : T → String → Nat
  noIdxOut : T → Path → Bytes
  noIdxExit : T → Path → Nat
  applyStep : T → Bytes → T
  applyExit : T → Bytes → Nat

/-- Argv of the range-log invocation of `CreateDiffBundleFile`
(new version, `file.go` lines 179-182). -/
def bundleLogArgs (dir fromCommittish toCommittish : String) : List String :=
  ["git", "-C", dir,
   "log", "-p", "--reverse", "--pretty=email", "--stat", "-m", "--first-parent", "--binary",
   fromCommittish ++ ".." ++ toCommittish]

/-- Argv of the range-log invocation of the old `CreateDiffBundleFile`
(`file.go` lines 24-27). -/
def bundleLogArgsOld (dir fromComittish toComittish : String) : List String :=
  ["git", "-C", dir,
   "log", "-p", "--reverse", "--pretty=email", "--stat", "-m", "--first-parent", "--binary",
   fromComittish ++ ".." ++ toComittish]

/-- Argv of the mailbox-apply invocation of `ApplyDiffBundleFile`. -/
def amArgs (dir fp : String) : List String :=
  ["git", "-C", dir, "am", fp]

/-- Argv of the mailbox-abort invocation of `ApplyDiffBundleFile`. -/
def amAbortArgs (dir : String) : List String :=
  ["git", "-C", dir, "am", "--abort"]

/-- Argv of the working-tree diff invocation of `CreateDiffPatchFile`. -/
def diffArgs (dir committish : String) : List String :=
  ["git", "-C", dir, "diff", "--patience", "--binary", committish]

/-- Argv of the per-file no-index diff invocation of
`AppendNonIndexedDiffFiles` (`os.DevNull` is `/dev/null`). -/
def noIndexArgs (dir p : String) : List String :=
  ["git", "-C", dir, "diff", "--patience", "--binary", "--no-index", "/dev/null", p]

/-- Argv of the direct-apply invocation of `ApplyDiffPatchFile`. -/
def applyArgs (dir fp : String) : List String :=
  ["git", "-C", dir, "apply", fp]

/-- The open with `O_WRONLY|O_CREATE|O_TRUNC` performed by both artifact
writers: the destination is created or truncated to empty content. -/
def openTrunc {T : Type} (fp : Path) (w : World T) : World T :=
  { w with fs := updateFS w.fs fp (some []) }

/-- `CreateDiffBundleFile` (new version, `file.go` lines 172-185): open
the destination with create-or-truncate, run the range log with its
standard output attached to the destination file, and return the runner's
outcome.  The bytes the process wrote are in the file on every exit of
the run, and a nonzero exit is the single returned cause. -/
def CreateDiffBundleFile {T : Type} (env : GitEnv T) (dir fp fromCommittish toCommittish : String)
    (w : World T) : List GErr × World T :=
  let w1 := openTrunc fp w
  let t := w1.trees dir
  let out := env.logOut t fromCommittish toCommittish
  let code := env.logExit t fromCommittish toCommittish
  let argv := bundleLogArgs dir fromCommittish toCommittish
  let w2 : World T := { w1 with fs := updateFS w1.fs fp (some out), trace := w1.trace ++ [argv] }
  if code = 0 then ([], w2) else ([GErr.exitErr argv code], w2)

/-- A read loop draining a stream into a destination through a 1024-byte
buffer, as in the old `CreateDiffBundleFile` (`file.go` lines 44-62):
each iteration takes at most 1024 bytes from the stream and appends them
to the accumulated file content, until the stream is exhausted. -/
def chunkCopy (src acc : Bytes) : Bytes :=
  if h : src = [] then acc
  else chunkCopy (src.drop 1024) (acc ++ src.take 1024)
termination_by src.length
decreasing_by
  simp only [List.length_drop]
  exact Nat.sub_lt (List.length_pos.mpr h) (by decide)

/-- The old `CreateDiffBundleFile` (`file.go` lines 17-64): open the
destination with create-or-truncate, start the range log with its
standard output piped back, and drain the pipe into the destination file
through an explicit 1024-byte buffered copy loop.  The old version never
waits on the process, so after a complete drain it returns nil
unconditionally. -/
def CreateDiffBundleFileOld {T : Type} (env : GitEnv T) (dir fp fromComittish toComittish : String)
    (w : World T) : List GErr × World T :=
  let w1 := openTrunc fp w
  let t := w1.trees dir
  let out := env.logOut t fromComittish toComittish
  let argv := bundleLogArgsOld dir fromComittish toComittish
  let w2 : World T :=
    { w1 with fs := updateFS w1.fs fp (some (chunkCopy out [])), trace := w1.trace ++ [argv] }
  ([], w2)

/-- `ApplyDiffBundleFile` (`file.go` lines 188-209): run the mailbox
apply; on failure append the cause, then run the mailbox abort and, if
that also fails, append its cause as well.  The returned list is the
aggregated error (`multierror.Append` on an initially nil error, passed
through `errors.WithStack` which preserves nil-ness and causes). -/
def ApplyDiffBundleFile {T : Type} (env : GitEnv T) (dir fp : String)
    (w : World T) : List GErr × World T :=
  let t := w.trees dir
  let b := w.fs fp
  let code := env.amExit t b
  let tApplied := env.amStep t b
  if code = 0 then
    ([], { w with trees := updTrees w.trees dir tApplied, trace := w.trace ++ [amArgs dir fp] })
  else
    let e1 := GErr.exitErr (amArgs dir fp) code
    let acode := env.abortExit tApplied
    let w2 : World T :=
      { w with trees := updTrees w.trees dir (env.abortStep tApplied),
               trace := w.trace ++ [amArgs dir fp, amAbortArgs dir] }
    if acode = 0 then ([e1], w2) else ([e1, GErr.exitErr (amAbortArgs dir) acode], w2)

/-- `CreateDiffPatchFile` (`file.go` lines 212-222): open the destination
with create-or-truncate, run the working-tree diff with its standard
output attached to the destination file, and return the runner's
outcome. -/
def CreateDiffPatchFile {T : Type} (env : GitEnv T) (dir fp committish : String)
    (w : World T) : List GErr × World T :=
  let w1 := openTrunc fp w
  let t := w1.trees dir
  let out := env.diffOut t committish
  let code := env.diffExit t committish
  let argv := diffArgs dir committish
  let w2 : World T := { w1 with fs := updateFS w1.fs fp (some out), trace := w1.trace ++ [argv] }
  if code = 0 then ([], w2) else ([GErr.exitErr argv code], w2)

/-- The per-path loop of `AppendNonIndexedDiffFiles` (`file.go` lines
232-244): for each path run the no-index diff with its standard output
attached to the (append-mode) artifact file; an exit status of exactly 1
is skipped (valid for a no-index diff), any other nonzero status is
appended to the aggregated error, and in every case the loop continues
with the remaining paths.  Returns the concatenated appended bytes, the
accumulated causes, and the argvs spawned, in input order. -/
def nonIndexedLoop {T : Type} (env : GitEnv T) (dir : String) (t : T) :
    List Path → Bytes × List GErr × List (List String)
  | [] => ([], [], [])
  | p :: ps =>
    let out := env.noIdxOut t p
    let code := env.noIdxExit t p
    let rest := nonIndexedLoop env dir t ps
    let here : List GErr :=
      if code = 0 then [] else if code = 1 then [] else [GErr.exitErr (noIndexArgs dir p) code]
    (out ++ rest.1, here ++ rest.2.1, noIndexArgs dir p :: rest.2.2)

/-- `AppendNonIndexedDiffFiles` (`file.go` lines 225-246): open the
existing artifact with `O_APPEND|O_WRONLY` (no create — a missing
artifact is a filesystem error), then run the per-path loop, every
invocation appending its output to the artifact. -/
def AppendNonIndexedDiffFiles {T : Type} (env : GitEnv T) (dir fp : String)
    (nonIndexedFilepaths : List Path) (w : World T) : List GErr × World T :=
  match w.fs fp with
  | none => ([GErr.fsErr fp], w)
  | some content =>
    let r := nonIndexedLoop env dir (w.trees dir) nonIndexedFilepaths
    (r.2.1, { w with fs := updateFS w.fs fp (some (content ++ r.1)), trace := w.trace ++ r.2.2 })

/-- `ApplyDiffPatchFile` (new version, `file.go` lines 249-266): stat the
patch file (a missing file is a filesystem error returned at once); a
zero-length file is a success returning immediately, with no process
spawned and no state changed; otherwise run the direct apply and return
the runner's outcome. -/
def ApplyDiffPatchFile {T : Type} (env : GitEnv T) (dir fp : String)
    (w : World T) : List GErr × World T :=
  match w.fs fp with
  | none => ([GErr.fsErr fp], w)
  | some b =>
    if b.length = 0 then ([], w)
    else
      let t := w.trees dir
      let code := env.applyExit t b
      let w1 : World T :=
        { w with trees := updTrees w.trees dir (env.applyStep t b),
                 trace := w.trace ++ [applyArgs dir fp] }
      if code = 0 then ([], w1) else ([GErr.exitErr (applyArgs dir fp) code], w1)

/-- Updating a map at a point with the value it already has is the
identity. -/
theorem updateFS_self {fs : Path → Option Bytes} {p : Path} {v : Option Bytes}
    (h : fs p = v) : updateFS fs p v = fs := by
  funext q
  simp only [updateFS]
  split
  · simp [*]
  · rfl

/-- Updating the tree map at a point with the value it already has is the
identity. -/
theorem updTrees_self {T : Type} {ts : String → T} {d : String} {t : T}
    (h : ts d = t) : updTrees ts d t = ts := by
  funext q
  simp only [updTrees]
  split
  · simp [*]
  · rfl

/-- The cause recorded by the non-indexed loop for one path: none when the
per-file no-index diff exits 0 or with the benign status 1, and the exit
failure otherwise. -/
def noIdxCause {T : Type} (env : GitEnv T) (dir : String) (t : T) (p : Path) : Option GErr :=
  if env.noIdxExit t p = 0 ∨ env.noIdxExit t p = 1 then none
  else some (GErr.exitErr (noIndexArgs dir p) (env.noIdxExit t p))

/-- The non-indexed loop appends every path's diff output, in input
order. -/
theorem nonIndexedLoop_out {T : Type} (env : GitEnv T) (dir : String) (t : T) (ps : List Path) :
    (nonIndexedLoop env dir t ps).1 = (ps.map (env.noIdxOut t)).flatten := by
  induction ps with
  | nil => rfl
  | cons p ps ih => simp [nonIndexedLoop, ih]

/-- The non-indexed loop's aggregated causes are exactly the per-path
causes of the failing paths, in input order. -/
theorem nonIndexedLoop_errs {T : Type} (env : GitEnv T) (dir : String) (t : T) (ps : List Path) :
    (nonIndexedLoop env dir t ps).2.1 = ps.filterMap (noIdxCause env dir t) := by
  induction ps with
  | nil => rfl
  | cons p ps ih =>
    by_cases h0 : env.noIdxExit t p = 0
    · simp [nonIndexedLoop, ih, noIdxCause, h0]
    · by_cases h1 : env.noIdxExit t p = 1
      · simp [nonIndexedLoop, ih, noIdxCause, h0, h1]
      · simp [nonIndexedLoop, ih, noIdxCause, h0, h1]

/-- The non-indexed loop spawns exactly one no-index diff per input path,
in input order. -/
theorem nonIndexedLoop_trace {T : Type} (env : GitEnv T) (dir : String) (t : T) (ps : List Path) :
    (nonIndexedLoop env dir t ps).2.2 = ps.map (noIndexArgs dir) := by
  induction ps with
  | nil => rfl
  | cons p ps ih => simp [nonIndexedLoop, ih]

/-- The chunked copy loop writes exactly the source bytes, in order,
after whatever was already written. -/
theorem chunkCopy_eq (src acc : Bytes) : chunkCopy src acc = acc ++ src := by
  rw [chunkCopy]
  split
  · simp [*]
  · rw [chunkCopy_eq (src.drop 1024) (acc ++ src.take 1024)]
    rw [List.append_assoc, List.take_append_drop]
termination_by src.length
decreasing_by
  simp only [List.length_drop]
  rename_i h
  exact Nat.sub_lt (List.length_pos.mpr h) (by decide)

/-- A trivial environment every invocation of which succeeds with empty
output and leaves the tree unchanged; used to instantiate theorems at
concrete inputs. -/
def envTriv : GitEnv Nat :=
  { logOut := fun _ _ _ => [], logExit := fun _ _ _ => 0,
    amStep := fun t _ => t, amExit := fun _ _ => 0,
    abortStep := fun t => t, abortExit := fun _ => 0,
    diffOut := fun _ _ => [], diffExit := fun _ _ => 0,
    noIdxOut := fun _ _ => [], noIdxExit := fun _ _ => 0,
    applyStep := fun t _ => t, applyExit := fun _ _ => 0 }

/-- A world holding a single zero-length file at `"patch"`. -/
def wEmptyPatch : World Nat :=
  { fs := fun p => if p = "patch" then some [] else none, trees := fun _ => 7, trace := [] }

/-- A world with an empty filesystem. -/
def wNone : World Nat :=
  { fs := fun _ => none, trees := fun _ => 7, trace := [] }

/-- C4: applying a diff patch whose file has zero length returns success,
spawns no external process, and changes nothing: the result is the nil
error and the unchanged world (same filesystem, trees and process
trace). -/
theorem C4_empty_patch_noop {T : Type} (env : GitEnv T) (dir fp : String) (w : World T)
    (b : Bytes) (hf : w.fs fp = some b) (hb : b.length = 0) :
    ApplyDiffPatchFile env dir fp w = ([], w) := by
  simp [ApplyDiffPatchFile, hf, hb]

/-- Instance of `C4_empty_patch_noop` at a concrete world holding a
zero-length patch file. -/
theorem C4_empty_patch_noop_witness :
    ApplyDiffPatchFile envTriv "dir" "patch" wEmptyPatch = ([], wEmptyPatch) :=
  C4_empty_patch_noop envTriv "dir" "patch" wEmptyPatch [] rfl rfl

/-- C8: applying a diff patch whose file is missing returns the
filesystem error at once — it is not the zero-length success case — and
spawns no external process and changes nothing. -/
theorem C8_missing_patch_error {T : Type} (env : GitEnv T) (dir fp : String) (w : World T)
    (hf : w.fs fp = none) :
    ApplyDiffPatchFile env dir fp w = ([GErr.fsErr fp], w) := by
  simp [ApplyDiffPatchFile, hf]

/-- Instance of `C8_missing_patch_error` at a world with no files. -/
theorem C8_missing_patch_error_witness :
    ApplyDiffPatchFile envTriv "dir" "patch" wNone = ([GErr.fsErr "patch"], wNone) :=
  C8_missing_patch_error envTriv "dir" "patch" wNone rfl

/-- C7: appending non-indexed diffs for an empty path list on an existing
artifact is a no-op success: the nil error is returned, no diff process
is spawned, and the world — in particular the artifact's content — is
unchanged. -/
theorem C7_empty_list_noop {T : Type} (env : GitEnv T) (dir fp : String) (w : World T)
    (content : Bytes) (hf : w.fs fp = some content) :
    AppendNonIndexedDiffFiles env dir fp [] w = ([], w) := by
  simp [AppendNonIndexedDiffFiles, hf, nonIndexedLoop, updateFS_self hf]

/-- Instance of `C7_empty_list_noop` at a concrete world holding the
artifact. -/
theorem C7_empty_list_noop_witness :
    AppendNonIndexedDiffFiles envTriv "dir" "patch" [] wEmptyPatch = ([], wEmptyPatch) :=
  C7_empty_list_noop envTriv "dir" "patch" wEmptyPatch [] rfl

/-- C3: the bundle applier's returned causes are, in order: empty when
the mailbox apply exits 0; the apply failure alone when the apply fails
and the abort exits 0; and the apply failure followed by the abort
failure when both fail.  The process trace shows that the abort is
attempted exactly when the apply fails — in particular no abort runs
after a successful apply. -/
theorem C3_error_aggregation {T : Type} (env : GitEnv T) (dir fp : String) (w : World T)
    (c a : Nat)
    (hc : env.amExit (w.trees dir) (w.fs fp) = c)
    (ha : env.abortExit (env.amStep (w.trees dir) (w.fs fp)) = a) :
    (ApplyDiffBundleFile env dir fp w).1
      = (if c = 0 then []
         else if a = 0 then [GErr.exitErr (amArgs dir fp) c]
         else [GErr.exitErr (amArgs dir fp) c, GErr.exitErr (amAbortArgs dir) a])
    ∧ (ApplyDiffBundleFile env dir fp w).2.trace
      = w.trace ++ (if c = 0 then [amArgs dir fp] else [amArgs dir fp, amAbortArgs dir]) := by
  by_cases h1 : c = 0
  · subst h1
    simp [ApplyDiffBundleFile, hc]
  · by_cases h2 : a = 0
    · subst h2
      simp [ApplyDiffBundleFile, hc, ha, h1]
    · simp [ApplyDiffBundleFile, hc, ha, h1, h2]

/-- An environment in which the mailbox apply fails with status 2 and the
subsequent abort fails with status 3. -/
def envAgg : GitEnv Nat :=
  { logOut := fun _ _ _ => [], logExit := fun _ _ _ => 0,
    amStep := fun t _ => t + 1, amExit := fun _ _ => 2,
    abortStep := fun t => t - 1, abortExit := fun _ => 3,
    diffOut := fun _ _ => [], diffExit := fun _ _ => 0,
    noIdxOut := fun _ _ => [], noIdxExit := fun _ _ => 0,
    applyStep := fun t _ => t, applyExit := fun _ _ => 0 }

/-- Instance of `C3_error_aggregation` in the double-failure scenario:
both the apply failure and the abort failure appear, in order, in the
returned causes. -/
theorem C3_error_aggregation_witness :
    (ApplyDiffBundleFile envAgg "dir" "bundle" wNone).1
      = [GErr.exitErr (amArgs "dir" "bundle") 2, GErr.exitErr (amAbortArgs "dir") 3]
    ∧ (ApplyDiffBundleFile envAgg "dir" "bundle" wNone).2.trace
      = [] ++ [amArgs "dir" "bundle", amAbortArgs "dir"] :=
  C3_error_aggregation envAgg "dir" "bundle" wNone 2 3 rfl rfl

/-- C2: when the mailbox apply fails and the abort succeeds and restores
the pre-apply tree (the abort hypothesis is the external tool's
documented rollback behaviour), the bundle applier leaves every
directory's tree and the whole filesystem exactly as they were before the
call, and returns the apply failure as the sole cause. -/
theorem C2_rollback_on_failure {T : Type} (env : GitEnv T) (dir fp : String) (w : World T)
    (c : Nat)
    (hc : env.amExit (w.trees dir) (w.fs fp) = c) (hc0 : c ≠ 0)
    (habort : env.abortExit (env.amStep (w.trees dir) (w.fs fp)) = 0)
    (hrestore : env.abortStep (env.amStep (w.trees dir) (w.fs fp)) = w.trees dir) :
    (ApplyDiffBundleFile env dir fp w).2.trees = w.trees
    ∧ (ApplyDiffBundleFile env dir fp w).2.fs = w.fs
    ∧ (ApplyDiffBundleFile env dir fp w).1 = [GErr.exitErr (amArgs dir fp) c] := by
  simp [ApplyDiffBundleFile, hc, hc0, habort, hrestore, updTrees_self rfl]

/-- An environment in which the mailbox apply fails with status 2 and the
abort succeeds, undoing the apply's tree change. -/
def envRollback : GitEnv Nat :=
  { logOut := fun _ _ _ => [], logExit := fun _ _ _ => 0,
    amStep := fun t _ => t + 1, amExit := fun _ _ => 2,
    abortStep := fun t => t - 1, abortExit := fun _ => 0,
    diffOut := fun _ _ => [], diffExit := fun _ _ => 0,
    noIdxOut := fun _ _ => [], noIdxExit := fun _ _ => 0,
    applyStep := fun t _ => t, applyExit := fun _ _ => 0 }

/-- Instance of `C2_rollback_on_failure` at a concrete world: the tree
map and filesystem after the failed apply equal the originals. -/
theorem C2_rollback_on_failure_witness :
    (ApplyDiffBundleFile envRollback "dir" "bundle" wNone).2.trees = wNone.trees
    ∧ (ApplyDiffBundleFile envRollback "dir" "bundle" wNone).2.fs = wNone.fs
    ∧ (ApplyDiffBundleFile envRollback "dir" "bundle" wNone).1
      = [GErr.exitErr (amArgs "dir" "bundle") 2] :=
  C2_rollback_on_failure envRollback "dir" "bundle" wNone 2 rfl (by decide) rfl rfl

/-- C5: in the non-indexed appender, a path whose per-file no-index diff
exits with status exactly 1 contributes no cause to the returned error
(status 1 is success), while its diff output — like every path's — is
appended to the artifact: the final artifact content is the prior content
followed by every path's diff output in input order, and the returned
causes are exactly the per-path causes, which are `none` at the status-1
path. -/
theorem C5_exit_one_benign {T : Type} (env : GitEnv T) (dir fp : String) (w : World T)
    (ps : List Path) (p : Path) (content : Bytes)
    (hf : w.fs fp = some content) (hp : p ∈ ps)
    (h1 : env.noIdxExit (w.trees dir) p = 1) :
    noIdxCause env dir (w.trees dir) p = none
    ∧ (AppendNonIndexedDiffFiles env dir fp ps w).1
      = ps.filterMap (noIdxCause env dir (w.trees dir))
    ∧ (AppendNonIndexedDiffFiles env dir fp ps w).2.fs fp
      = some (content ++ (ps.map (env.noIdxOut (w.trees dir))).flatten) := by
  refine ⟨by simp [noIdxCause, h1], ?_, ?_⟩
  · simp [AppendNonIndexedDiffFiles, hf, nonIndexedLoop_errs]
  · simp [AppendNonIndexedDiffFiles, hf, nonIndexedLoop_out, updateFS]

/-- An environment whose per-file no-index diff writes the path's length
as its one output byte, and exits 1 everywhere except the path `"bad"`,
where it exits 2. -/
def envNoIdx : GitEnv Nat :=
  { logOut := fun _ _ _ => [], logExit := fun _ _ _ => 0,
    amStep := fun t _ => t, amExit := fun _ _ => 0,
    abortStep := fun t => t, abortExit := fun _ => 0,
    diffOut := fun _ _ => [], diffExit := fun _ _ => 0,
    noIdxOut := fun _ p => [p.length], noIdxExit := fun _ p => if p = "bad" then 2 else 1,
    applyStep := fun t _ => t, applyExit := fun _ _ => 0 }

/-- A world holding an artifact `"patch"` with one prior content byte. -/
def wPatch9 : World Nat :=
  { fs := fun p => if p = "patch" then some [9] else none, trees := fun _ => 7, trace := [] }

/-- Instance of `C5_exit_one_benign` at paths `["u1", "u2"]`, both
exiting 1: no cause is recorded and both sections are appended. -/
theorem C5_exit_one_benign_witness :
    noIdxCause envNoIdx "dir" (wPatch9.trees "dir") "u1" = none
    ∧ (AppendNonIndexedDiffFiles envNoIdx "dir" "patch" ["u1", "u2"] wPatch9).1
      = (["u1", "u2"] : List Path).filterMap (noIdxCause envNoIdx "dir" (wPatch9.trees "dir"))
    ∧ (AppendNonIndexedDiffFiles envNoIdx "dir" "patch" ["u1", "u2"] wPatch9).2.fs "patch"
      = some ([9] ++ ((["u1", "u2"] : List Path).map (envNoIdx.noIdxOut (wPatch9.trees "dir"))).flatten) :=
  C5_exit_one_benign envNoIdx "dir" "patch" wPatch9 ["u1", "u2"] "u1" [9]
    (by decide) (by decide) (by decide)

/-- C6: in the non-indexed appender, a path whose per-file no-index diff
fails with a nonzero, non-1 status contributes exactly one cause, yet
processing continues: every input path — including the paths after the
failing one — is spawned and its output appended, in input order, and the
returned causes are exactly the failing paths' causes in input order. -/
theorem C6_partial_failure_tolerance {T : Type} (env : GitEnv T) (dir fp : String) (w : World T)
    (ps : List Path) (p : Path) (content : Bytes) (c : Nat)
    (hf : w.fs fp = some content) (hp : p ∈ ps)
    (hcode : env.noIdxExit (w.trees dir) p = c) (hc0 : c ≠ 0) (hc1 : c ≠ 1) :
    noIdxCause env dir (w.trees dir) p = some (GErr.exitErr (noIndexArgs dir p) c)
    ∧ (AppendNonIndexedDiffFiles env dir fp ps w).1
      = ps.filterMap (noIdxCause env dir (w.trees dir))
    ∧ (AppendNonIndexedDiffFiles env dir fp ps w).2.fs fp
      = some (content ++ (ps.map (env.noIdxOut (w.trees dir))).flatten)
    ∧ (AppendNonIndexedDiffFiles env dir fp ps w).2.trace
      = w.trace ++ ps.map (noIndexArgs dir) := by
  refine ⟨by simp [noIdxCause, hcode, hc0, hc1], ?_, ?_, ?_⟩
  · simp [AppendNonIndexedDiffFiles, hf, nonIndexedLoop_errs]
  · simp [AppendNonIndexedDiffFiles, hf, nonIndexedLoop_out, updateFS]
  · simp [AppendNonIndexedDiffFiles, hf, nonIndexedLoop_trace]

/-- Instance of `C6_partial_failure_tolerance` at `["p1", "bad", "p3"]`
with the middle path failing with status 2: the flanking paths are still
appended and the failing path is the one recorded cause. -/
theorem C6_partial_failure_tolerance_witness :
    noIdxCause envNoIdx "dir" (wPatch9.trees "dir") "bad"
      = some (GErr.exitErr (noIndexArgs "dir" "bad") 2)
    ∧ (AppendNonIndexedDiffFiles envNoIdx "dir" "patch" ["p1", "bad", "p3"] wPatch9).1
      = (["p1", "bad", "p3"] : List Path).filterMap (noIdxCause envNoIdx "dir" (wPatch9.trees "dir"))
    ∧ (AppendNonIndexedDiffFiles envNoIdx "dir" "patch" ["p1", "bad", "p3"] wPatch9).2.fs "patch"
      = some ([9] ++ ((["p1", "bad", "p3"] : List Path).map (envNoIdx.noIdxOut (wPatch9.trees "dir"))).flatten)
    ∧ (AppendNonIndexedDiffFiles envNoIdx "dir" "patch" ["p1", "bad", "p3"] wPatch9).2.trace
      = wPatch9.trace ++ (["p1", "bad", "p3"] : List Path).map (noIndexArgs "dir") :=
  C6_partial_failure_tolerance envNoIdx "dir" "patch" wPatch9 ["p1", "bad", "p3"] "bad" [9] 2
    (by decide) (by decide) (by decide) (by decide) (by decide)

/-- C9: both artifact writers truncate the destination before the
external command starts (`openTrunc` leaves empty content at the
destination), and the theorem holds for every prior world — in
particular for any pre-existing content at the destination, which is
therefore destroyed on every call.  When the command then fails, each
writer returns the failure as its sole cause while the destination is
left holding the command's (possibly partial) output: the prior content
is not restored. -/
theorem C9_writers_truncate_no_restore {T : Type} (env : GitEnv T)
    (dir fp fromCommittish toCommittish committish : String) (w : World T) (cb cd : Nat)
    (hb : env.logExit (w.trees dir) fromCommittish toCommittish = cb) (hb0 : cb ≠ 0)
    (hd : env.diffExit (w.trees dir) committish = cd) (hd0 : cd ≠ 0) :
    (openTrunc fp w).fs fp = some []
    ∧ (CreateDiffBundleFile env dir fp fromCommittish toCommittish w).2.fs fp
      = some (env.logOut (w.trees dir) fromCommittish toCommittish)
    ∧ (CreateDiffBundleFile env dir fp fromCommittish toCommittish w).1
      = [GErr.exitErr (bundleLogArgs dir fromCommittish toCommittish) cb]
    ∧ (CreateDiffPatchFile env dir fp committish w).2.fs fp
      = some (env.diffOut (w.trees dir) committish)
    ∧ (CreateDiffPatchFile env dir fp committish w).1
      = [GErr.exitErr (diffArgs dir committish) cd] := by
  refine ⟨by simp [openTrunc, updateFS], ?_, ?_, ?_, ?_⟩
  · simp [CreateDiffBundleFile, openTrunc, updateFS, hb, hb0]
  · simp [CreateDiffBundleFile, openTrunc, hb, hb0]
  · simp [CreateDiffPatchFile, openTrunc, updateFS, hd, hd0]
  · simp [CreateDiffPatchFile, openTrunc, hd, hd0]

/-- An environment whose range log fails with status 2 after writing one
byte and whose working-tree diff fails with status 3 after writing one
byte. -/
def envWriterFail : GitEnv Nat :=
  { logOut := fun _ _ _ => [5], logExit := fun _ _ _ => 2,
    amStep := fun t _ => t, amExit := fun _ _ => 0,
    abortStep := fun t => t, abortExit := fun _ => 0,
    diffOut := fun _ _ => [6], diffExit := fun _ _ => 3,
    noIdxOut := fun _ _ => [], noIdxExit := fun _ _ => 0,
    applyStep := fun t _ => t, applyExit := fun _ _ => 0 }

/-- Instance of `C9_writers_truncate_no_restore` at a world whose
destination file already holds content `[9]`: the prior byte is gone and
each failing writer leaves its partial output behind. -/
theorem C9_writers_truncate_no_restore_witness :
    (openTrunc "patch" wPatch9).fs "patch" = some []
    ∧ (CreateDiffBundleFile envWriterFail "dir" "patch" "A" "B" wPatch9).2.fs "patch"
      = some (envWriterFail.logOut (wPatch9.trees "dir") "A" "B")
    ∧ (CreateDiffBundleFile envWriterFail "dir" "patch" "A" "B" wPatch9).1
      = [GErr.exitErr (bundleLogArgs "dir" "A" "B") 2]
    ∧ (CreateDiffPatchFile envWriterFail "dir" "patch" "R" wPatch9).2.fs "patch"
      = some (envWriterFail.diffOut (wPatch9.trees "dir") "R")
    ∧ (CreateDiffPatchFile envWriterFail "dir" "patch" "R" wPatch9).1
      = [GErr.exitErr (diffArgs "dir" "R") 3] :=
  C9_writers_truncate_no_restore envWriterFail "dir" "patch" "A" "B" "R" wPatch9 2 3
    rfl (by decide) rfl (by decide)

/-- C10: the old bundle writer (explicit 1024-byte buffered copy of the
piped standard output) and the new one (destination attached directly as
the process's standard output) build identical argvs, and on a successful
run they return success and produce identical worlds — the chunked copy
writes exactly the process's output bytes. -/
theorem C10_old_new_writer_equiv {T : Type} (env : GitEnv T)
    (dir fp fromCommittish toCommittish : String) (w : World T)
    (h : env.logExit (w.trees dir) fromCommittish toCommittish = 0) :
    bundleLogArgsOld dir fromCommittish toCommittish
      = bundleLogArgs dir fromCommittish toCommittish
    ∧ CreateDiffBundleFileOld env dir fp fromCommittish toCommittish w
      = CreateDiffBundleFile env dir fp fromCommittish toCommittish w := by
  refine ⟨rfl, ?_⟩
  simp [CreateDiffBundleFileOld, CreateDiffBundleFile, openTrunc, h, chunkCopy_eq,
    bundleLogArgsOld, bundleLogArgs]

/-- Instance of `C10_old_new_writer_equiv` at a concrete world: both
versions return the very same pair. -/
theorem C10_old_new_writer_equiv_witness :
    bundleLogArgsOld "dir" "A" "B" = bundleLogArgs "dir" "A" "B"
    ∧ CreateDiffBundleFileOld envTriv "dir" "patch" "A" "B" wPatch9
      = CreateDiffBundleFile envTriv "dir" "patch" "A" "B" wPatch9 :=
  C10_old_new_writer_equiv envTriv "dir" "patch" "A" "B" wPatch9 rfl

/-- C1: the bundle round trip.  The hypotheses state the external tool's
contract for a range `fromCommittish..toCommittish` whose target is
first-parent reachable from the source: the range log succeeds, and a
mailbox apply of exactly the logged bytes on the target tree (checked out
at the source revision) succeeds and yields the tree `tB` of the target
revision.  Under that contract, `CreateDiffBundleFile` followed by
`ApplyDiffBundleFile` on the written file succeeds and leaves the target
directory's tree equal to `tB`: the bytes the applier feeds to the
mailbox apply are exactly the bytes the log produced. -/
theorem C1_bundle_round_trip {T : Type} (env : GitEnv T)
    (dirRepo dirTgt fp fromCommittish toCommittish : String) (w : World T) (tB : T)
    (hlog : env.logExit (w.trees dirRepo) fromCommittish toCommittish = 0)
    (hamExit : env.amExit (w.trees dirTgt)
      (some (env.logOut (w.trees dirRepo) fromCommittish toCommittish)) = 0)
    (hamStep : env.amStep (w.trees dirTgt)
      (some (env.logOut (w.trees dirRepo) fromCommittish toCommittish)) = tB) :
    (CreateDiffBundleFile env dirRepo fp fromCommittish toCommittish w).1 = []
    ∧ (ApplyDiffBundleFile env dirTgt fp
        (CreateDiffBundleFile env dirRepo fp fromCommittish toCommittish w).2).1 = []
    ∧ (ApplyDiffBundleFile env dirTgt fp
        (CreateDiffBundleFile env dirRepo fp fromCommittish toCommittish w).2).2.trees dirTgt
      = tB := by
  refine ⟨by simp [CreateDiffBundleFile, openTrunc, hlog], ?_, ?_⟩
  · simp [CreateDiffBundleFile, ApplyDiffBundleFile, openTrunc, updateFS, hlog, hamExit]
  · simp [CreateDiffBundleFile, ApplyDiffBundleFile, openTrunc, updateFS, updTrees,
      hlog, hamExit, hamStep]

/-- A two-revision environment: the range log of `A..B` emits the bytes
`[1, 2]`, and a mailbox apply of exactly those bytes turns any tree into
`42`, the tree of revision `B`; any other input fails. -/
def envRoundTrip : GitEnv Nat :=
  { logOut := fun _ _ _ => [1, 2], logExit := fun _ _ _ => 0,
    amStep := fun t ob => if ob = some [1, 2] then 42 else t,
    amExit := fun _ ob => if ob = some [1, 2] then 0 else 3,
    abortStep := fun t => t, abortExit := fun _ => 0,
    diffOut := fun _ _ => [], diffExit := fun _ _ => 0,
    noIdxOut := fun _ _ => [], noIdxExit := fun _ _ => 0,
    applyStep := fun t _ => t, applyExit := fun _ _ => 0 }

/-- Instance of `C1_bundle_round_trip` in `envRoundTrip`: creating the
bundle for `A..B` in `"repo"` and applying it in `"tgt"` succeeds and
leaves `"tgt"` at revision `B`'s tree `42`. -/
theorem C1_bundle_round_trip_witness :
    (CreateDiffBundleFile envRoundTrip "repo" "f" "A" "B" wNone).1 = []
    ∧ (ApplyDiffBundleFile envRoundTrip "tgt" "f"
        (CreateDiffBundleFile envRoundTrip "repo" "f" "A" "B" wNone).2).1 = []
    ∧ (ApplyDiffBundleFile envRoundTrip "tgt" "f"
        (CreateDiffBundleFile envRoundTrip "repo" "f" "A" "B" wNone).2).2.trees "tgt" = 42 :=
  C1_bundle_round_trip envRoundTrip "repo" "tgt" "f" "A" "B" wNone 42
    rfl (by decide) (by decide)

end GitGhost
